import Mathlib

/-
Verification of the solana_logger crate (src/lib.rs): a compile-time gated
logging facade.  The Rust code is shallowly embedded: the `Level` enum, the
`level()` function, and the expansions of the `log!`, `debug!`, `info!`,
`warn!` and `error!` macros become Lean functions.  The observable effect of
a logging call is the (format string, argument list) pair handed to the
external emission primitive `solana_program::msg!`, modelled by `Emission`;
a suppressed call produces `none`.
-/

namespace SolanaLogger

/-- Rust enum `Level` (src/lib.rs lines 22-32).  Variants in declaration
order: Debug, Info, Warn, Error, Disabled.  `derive(Ord)` in Rust orders the
variants by declaration order, which `Level.toNat` reproduces. -/
inductive Level where
  | Debug
  | Info
  | Warn
  | Error
  | Disabled
deriving DecidableEq, Repr, Fintype

/-- Discriminant of a `Level` variant, in declaration order, as used by the
Rust `derive(Ord)` implementation. -/
def Level.toNat : Level → Nat
  | .Debug => 0
  | .Info => 1
  | .Warn => 2
  | .Error => 3
  | .Disabled => 4

instance : LE Level := ⟨fun a b => a.toNat ≤ b.toNat⟩

instance : LT Level := ⟨fun a b => a.toNat < b.toNat⟩

instance (a b : Level) : Decidable (a ≤ b) :=
  inferInstanceAs (Decidable (a.toNat ≤ b.toNat))

instance (a b : Level) : Decidable (a < b) :=
  inferInstanceAs (Decidable (a.toNat < b.toNat))

/-- The set of cargo features visible to `cfg!`/`#[cfg]` at compile time:
one boolean per `loglevel_*` feature flag of the crate. -/
structure Features where
  loglevel_debug : Bool
  loglevel_info : Bool
  loglevel_warn : Bool
  loglevel_error : Bool
deriving DecidableEq, Repr, Fintype

/-- Rust function `level()` (src/lib.rs lines 35-53): returns the configured
log level by testing the feature flags in order debug, info, warn, error,
defaulting to `Disabled`. -/
def level (f : Features) : Level :=
  if f.loglevel_debug then .Debug
  else if f.loglevel_info then .Info
  else if f.loglevel_warn then .Warn
  else if f.loglevel_error then .Error
  else .Disabled

/-- The feature flag that guards the logging macro of a given message level
(src/lib.rs lines 74, 83, 92, 101).  No macro exists for `Disabled`. -/
def flagFor (f : Features) : Level → Bool
  | .Debug => f.loglevel_debug
  | .Info => f.loglevel_info
  | .Warn => f.loglevel_warn
  | .Error => f.loglevel_error
  | .Disabled => false

/-- Modelled from the spec: the crate manifest (Cargo.toml, not under src/)
makes the `loglevel_*` build flags mutually stackable, "each enabling that
level and all more-severe levels".  `stack` closes a raw flag selection
under these implications, yielding the feature set that `cfg` observes. -/
def stack (f : Features) : Features where
  loglevel_debug := f.loglevel_debug
  loglevel_info := f.loglevel_debug || f.loglevel_info
  loglevel_warn := f.loglevel_debug || f.loglevel_info || f.loglevel_warn
  loglevel_error :=
    f.loglevel_debug || f.loglevel_info || f.loglevel_warn || f.loglevel_error

/-- A call to the external emission primitive `solana_program::msg!`: the
format string and the list of substitution arguments (each argument taken by
its rendered form), exactly as the macro expansion passes them. -/
structure Emission where
  fmt : String
  args : List String
deriving DecidableEq, Repr

/-- The `prefix` arm of the `log!` macro (src/lib.rs lines 59-61):
`concat!("[", file!(), ":", line!(), " ", label, "] ", fmt)`. -/
def logFmt (file : String) (line : Nat) (label fmt : String) : String :=
  "[" ++ file ++ ":" ++ toString line ++ " " ++ label ++ "] " ++ fmt

/-- The exported `log!` macro (src/lib.rs lines 57-68).  The `$level`
argument is matched but never used by any expansion arm.  A single argument
selects the arm of line 65 (the argument becomes the sole substitution into
a fixed placeholder); two or more arguments select the arm of line 62 (the
first is the format string, the rest are substitutions).  An empty argument
list matches no arm, i.e. fails to compile: modelled as `none`. -/
def log (lvl : Level) (label file : String) (line : Nat) :
    List String → Option Emission
  | [] => none
  | [o] => some ⟨logFmt file line label ("\x7b\x7d"), [o]⟩
  | fmt :: opts => some ⟨logFmt file line label fmt, opts⟩

/-- The `debug!` macro (src/lib.rs lines 70-77): its expansion is present
exactly when feature `loglevel_debug` is enabled. -/
def debug (f : Features) (file : String) (line : Nat) (opts : List String) :
    Option Emission :=
  if f.loglevel_debug then log .Debug ("DEBUG") file line opts else none

/-- The `info!` macro (src/lib.rs lines 79-86): its expansion is present
exactly when feature `loglevel_info` is enabled. -/
def info (f : Features) (file : String) (line : Nat) (opts : List String) :
    Option Emission :=
  if f.loglevel_info then log .Info ("INFO") file line opts else none

/-- The `warn!` macro (src/lib.rs lines 88-95): its expansion is present
exactly when feature `loglevel_warn` is enabled. -/
def warn (f : Features) (file : String) (line : Nat) (opts : List String) :
    Option Emission :=
  if f.loglevel_warn then log .Warn ("WARN") file line opts else none

/-- The `error!` macro (src/lib.rs lines 97-104): its expansion is present
exactly when feature `loglevel_error` is enabled. -/
def error (f : Features) (file : String) (line : Nat) (opts : List String) :
    Option Emission :=
  if f.loglevel_error then log .Error ("ERROR") file line opts else none

/-- Modelled from the spec: the external emission primitive renders its
format string with "{} placeholder semantics identical to common
string-formatting conventions" - each two-character placeholder consumes the
next argument, whose text is inserted verbatim and never rescanned. -/
def renderChars : List Char → List String → List Char
  | [], _ => []
  | [c], _ => [c]
  | c1 :: c2 :: rest, args =>
    if c1 = '\x7b' ∧ c2 = '\x7d' then
      match args with
      | a :: args2 => a.data ++ renderChars rest args2
      | [] => c1 :: c2 :: renderChars rest []
    else
      c1 :: renderChars (c2 :: rest) args

/-- Rendered output of an emission: the format string with each placeholder
replaced by the corresponding argument. -/
def render (fmt : String) (args : List String) : String :=
  ⟨renderChars fmt.data args⟩

/-- Rendered output of a possibly-suppressed logging call. -/
def renderOut (e : Option Emission) : Option String :=
  e.map (fun m => render m.fmt m.args)

/-- A format fragment is clean when it contains no placeholder and does not
end in an opening brace (so no placeholder can form across a boundary). -/
def cleanFmt : List Char → Bool
  | [] => true
  | ['\x7b'] => false
  | [_] => true
  | c1 :: c2 :: rest => !(c1 = '\x7b' && c2 = '\x7d') && cleanFmt (c2 :: rest)

/-- A logging call with a nonempty argument list always matches one of the
two emitting arms of `log!`. -/
theorem log_isSome (lvl : Level) (label file : String) (line : Nat)
    (opts : List String) (h : opts ≠ []) :
    (log lvl label file line opts).isSome = true := by
  match opts, h with
  | [o], _ => rfl
  | o1 :: o2 :: rest, _ => rfl

/-- An enabled feature flag bounds the configured level from above: `level`
never reports a threshold stricter than any enabled flag. -/
theorem flag_le : ∀ (f : Features) (L : Level),
    flagFor f L = true → level f ≤ L := by decide

/-- C4: the `Level` type is a total, fixed ordering with
Debug < Info < Warn < Error < Disabled, Disabled sorting strictly above
Error; the order is reflexive-antisymmetric-transitive and any two levels
are comparable. -/
theorem level_order_total_fixed :
    (Level.Debug < Level.Info ∧ Level.Info < Level.Warn ∧
      Level.Warn < Level.Error ∧ Level.Error < Level.Disabled) ∧
    (∀ a b : Level, a ≤ b ∨ b ≤ a) ∧
    (∀ a b : Level, a ≤ b → b ≤ a → a = b) ∧
    (∀ a b c : Level, a ≤ b → b ≤ c → a ≤ c) ∧
    (∀ a b : Level, a < b ↔ a ≤ b ∧ ¬b ≤ a) := by decide

/-- Witness for C4: antisymmetry applied at a concrete pair of levels. -/
theorem level_order_total_fixed_witness : Level.Warn = Level.Warn :=
  level_order_total_fixed.2.2.1 Level.Warn Level.Warn (by decide) (by decide)

/-- C8: `level()` returns the least severe enabled level; the flag checks
are ordered debug, info, warn, error, so a less severe flag takes priority
over any more severe one. -/
theorem level_is_least_enabled (f : Features) :
    (∀ L : Level, flagFor f L = true → level f ≤ L) ∧
    (level f ≠ Level.Disabled → flagFor f (level f) = true) := by
  revert f; decide

/-- Witness for C8: with info and error enabled, the configured level is
bounded by the error flag and is itself an enabled flag. -/
theorem level_is_least_enabled_witness :
    level ⟨false, true, false, true⟩ ≤ Level.Error ∧
    flagFor ⟨false, true, false, true⟩ (level ⟨false, true, false, true⟩) = true :=
  ⟨(level_is_least_enabled ⟨false, true, false, true⟩).1 Level.Error (by decide),
   (level_is_least_enabled ⟨false, true, false, true⟩).2 (by decide)⟩

/-- C10: the exported `log!` macro ignores its level argument entirely and,
for any argument list that matches an arm, forwards the message to the
emission primitive unconditionally (its expansion consults no feature
flag and no threshold). -/
theorem log_ignores_level (l1 l2 : Level) (label file : String) (line : Nat)
    (opts : List String) (h : opts ≠ []) :
    log l1 label file line opts = log l2 label file line opts ∧
    (log l1 label file line opts).isSome = true := by
  refine ⟨?_, log_isSome l1 label file line opts h⟩
  match opts, h with
  | [o], _ => rfl
  | o1 :: o2 :: rest, _ => rfl

/-- Witness for C10 at a concrete invocation with two distinct levels. -/
theorem log_ignores_level_witness :
    log Level.Disabled ("ERROR") ("f.rs") 1 (["x"]) =
      log Level.Debug ("ERROR") ("f.rs") 1 (["x"]) ∧
    (log Level.Disabled ("ERROR") ("f.rs") 1 (["x"])).isSome = true :=
  log_ignores_level Level.Disabled Level.Debug ("ERROR") ("f.rs") 1 (["x"])
    (by decide)

/-- C3: with no loglevel feature configured the level is `Disabled`, and a
`Disabled` threshold suppresses every logging call regardless of its
level. -/
theorem disabled_suppresses_all (f : Features) (file : String) (line : Nat)
    (opts : List String) :
    level ⟨false, false, false, false⟩ = Level.Disabled ∧
    (level f = Level.Disabled →
      debug f file line opts = none ∧ info f file line opts = none ∧
      warn f file line opts = none ∧ error f file line opts = none) := by
  obtain ⟨d, i, w, e⟩ := f
  refine ⟨rfl, fun h => ?_⟩
  cases d <;> cases i <;> cases w <;> cases e <;>
    simp_all [level, debug, info, warn, error]

/-- Witness for C3 at the empty feature selection. -/
theorem disabled_suppresses_all_witness :
    debug ⟨false, false, false, false⟩ ("f.rs") 1 (["x"]) = none :=
  ((disabled_suppresses_all ⟨false, false, false, false⟩ ("f.rs") 1
    (["x"])).2 (by decide)).1

/-- C6: when a call's level lies strictly below the configured threshold
its macro expands to nothing: no emission reaches the primitive, and the
(total) gate cannot fail at runtime. -/
theorem suppressed_call_no_effect (f : Features) (file : String) (line : Nat)
    (opts : List String) :
    (Level.Debug < level f → debug f file line opts = none) ∧
    (Level.Info < level f → info f file line opts = none) ∧
    (Level.Warn < level f → warn f file line opts = none) ∧
    (Level.Error < level f → error f file line opts = none) := by
  obtain ⟨d, i, w, e⟩ := f
  cases d <;> cases i <;> cases w <;> cases e <;>
    refine ⟨fun h => ?_, fun h => ?_, fun h => ?_, fun h => ?_⟩ <;>
    first
      | rfl
      | exact absurd h (by decide)

/-- C1: over the stacked feature sets the gate is exactly the threshold
comparison: a call at level L is emitted if and only if the configured
threshold is at most L, so configuring threshold L2 suppresses every call
strictly below L2 and admits every call at L2 or above. -/
theorem emit_iff_threshold_le (f : Features) (file : String) (line : Nat)
    (opts : List String) (h : opts ≠ []) :
    ((debug (stack f) file line opts).isSome = true ↔
      level (stack f) ≤ Level.Debug) ∧
    ((info (stack f) file line opts).isSome = true ↔
      level (stack f) ≤ Level.Info) ∧
    ((warn (stack f) file line opts).isSome = true ↔
      level (stack f) ≤ Level.Warn) ∧
    ((error (stack f) file line opts).isSome = true ↔
      level (stack f) ≤ Level.Error) := by
  match opts, h with
  | o :: rest, _ =>
    obtain ⟨d, i, w, e⟩ := f
    cases rest <;> cases d <;> cases i <;> cases w <;> cases e <;>
      simp [stack, level, debug, info, warn, error, log] <;> decide

/-- Witness for C1: threshold Warn admits an error-level call. -/
theorem emit_iff_threshold_le_witness :
    (error (stack ⟨false, false, true, false⟩) ("f.rs") 1
      (["x"])).isSome = true ↔
    level (stack ⟨false, false, true, false⟩) ≤ Level.Error :=
  (emit_iff_threshold_le ⟨false, false, true, false⟩ ("f.rs") 1 (["x"])
    (by decide)).2.2.2

/-- C7: the gate is deterministic and stateless: the suppress/emit
decision (and the whole emission) of every macro is a function of the
configured threshold and the call's inputs alone, so two stacked
configurations with the same threshold behave identically. -/
theorem gate_deterministic (f g : Features) (file : String) (line : Nat)
    (opts : List String) (h : level (stack f) = level (stack g)) :
    debug (stack f) file line opts = debug (stack g) file line opts ∧
    info (stack f) file line opts = info (stack g) file line opts ∧
    warn (stack f) file line opts = warn (stack g) file line opts ∧
    error (stack f) file line opts = error (stack g) file line opts := by
  have key : ∀ x y : Features,
      level (stack x) = level (stack y) → stack x = stack y := by decide
  rw [key f g h]
  exact ⟨rfl, rfl, rfl, rfl⟩

/-- Witness for C7: two distinct raw selections with threshold Warn. -/
theorem gate_deterministic_witness :
    warn (stack ⟨false, false, true, false⟩) ("f.rs") 1 (["y"]) =
      warn (stack ⟨false, false, true, true⟩) ("f.rs") 1 (["y"]) :=
  (gate_deterministic ⟨false, false, true, false⟩ ⟨false, false, true, true⟩
    ("f.rs") 1 (["y"]) (by decide)).2.2.1

/-- C2: with only the warn flag selected, a debug call produces no output,
`warn!("y")` renders to `[<file>:<line> WARN] y`, and
`error!("z {}", "w")` renders to `[<file>:<line> ERROR] z w`. -/
theorem warn_threshold_outputs :
    renderOut (debug (stack ⟨false, false, true, false⟩) ("src/lib.rs") 7
      (["x"])) = none ∧
    renderOut (warn (stack ⟨false, false, true, false⟩) ("src/lib.rs") 8
      (["y"])) = some ("[src/lib.rs:8 WARN] y") ∧
    renderOut (error (stack ⟨false, false, true, false⟩) ("src/lib.rs") 9
      (["z \x7b\x7d", "w"])) = some ("[src/lib.rs:9 ERROR] z w") := by
  decide

/-- Rendering distributes over a clean leading fragment: the fragment is
copied verbatim and substitution continues in the remainder. -/
theorem renderChars_append :
    ∀ (p : List Char), cleanFmt p = true →
      ∀ (t : List Char) (args : List String),
        renderChars (p ++ t) args = p ++ renderChars t args
  | [], _, _, _ => rfl
  | [c], hp, t, args => by
    have hc : c ≠ '\x7b' := by
      intro hEq
      subst hEq
      simp [cleanFmt] at hp
    cases t with
    | nil => rfl
    | cons c2 t' =>
      show renderChars (c :: c2 :: t') args = c :: renderChars (c2 :: t') args
      rw [renderChars.eq_def]
      simp [hc]
  | c1 :: c2 :: rest, hp, t, args => by
    rw [cleanFmt] at hp
    rw [Bool.and_eq_true, Bool.not_eq_true', Bool.and_eq_false_iff] at hp
    have h1 : ¬(c1 = '\x7b' ∧ c2 = '\x7d') := by
      intro ⟨ha, hb⟩
      rcases hp.1 with hx | hx <;> simp [ha, hb] at hx
    show renderChars (c1 :: c2 :: (rest ++ t)) args =
      (c1 :: c2 :: rest) ++ renderChars t args
    rw [renderChars.eq_def]
    simp only [if_neg h1]
    have ht : c2 :: (rest ++ t) = (c2 :: rest) ++ t := rfl
    rw [ht, renderChars_append (c2 :: rest) hp.2 t args]
    rfl

/-- The prefixed format string is the bare prefix followed by the original
format string. -/
theorem logFmt_split (file : String) (line : Nat) (label fmt : String) :
    logFmt file line label fmt = logFmt file line label ("") ++ fmt := by
  apply String.ext
  simp [logFmt, String.data_append]

/-- Rendering distributes over a clean leading String fragment. -/
theorem render_split (a b : String) (args : List String)
    (ha : cleanFmt a.data = true) :
    render (a ++ b) args = a ++ render b args := by
  apply String.ext
  simp [render, String.data_append, renderChars_append a.data ha]

/-- The lone placeholder renders to exactly its single argument. -/
theorem render_hole (o : String) : render ("\x7b\x7d") [o] = o := by
  apply String.ext
  simp [render, renderChars]

/-- C5: an emitted message is the original format string and argument list,
unchanged, behind exactly one `[<file>:<line> <LABEL>] ` prefix (for a
single argument, the fixed placeholder stands for the argument); the
rendered output is the prefix text followed by the rendered original
message. -/
theorem emission_form (lvl : Level) (label file : String) (line : Nat)
    (fmt o : String) (opts : List String) (h : opts ≠ [])
    (hclean : cleanFmt (logFmt file line label ("")).data = true) :
    log lvl label file line (fmt :: opts) =
      some ⟨logFmt file line label fmt, opts⟩ ∧
    log lvl label file line [o] =
      some ⟨logFmt file line label ("\x7b\x7d"), [o]⟩ ∧
    render (logFmt file line label fmt) opts =
      logFmt file line label ("") ++ render fmt opts ∧
    render (logFmt file line label ("\x7b\x7d")) [o] =
      logFmt file line label ("") ++ o := by
  refine ⟨?_, rfl, ?_, ?_⟩
  · match opts, h with
    | o2 :: rest, _ => rfl
  · rw [logFmt_split file line label fmt, render_split _ _ _ hclean]
  · rw [logFmt_split file line label ("\x7b\x7d"),
      render_split _ _ _ hclean, render_hole]

/-- Witness for C5 at the error call of the spec's scenario. -/
theorem emission_form_witness :
    log Level.Error ("ERROR") ("src/lib.rs") 9 (["z \x7b\x7d", "w"]) =
      some ⟨logFmt ("src/lib.rs") 9 ("ERROR") ("z \x7b\x7d"), ["w"]⟩ :=
  (emission_form Level.Error ("ERROR") ("src/lib.rs") 9 ("z \x7b\x7d") ("y")
    (["w"]) (by decide) (by decide)).1

/-- C9: a single-argument invocation substitutes the argument as a value
into the fixed placeholder of the `log!` single-argument arm: whatever the
argument's text, placeholders inside it are appended literally, never
interpreted as formatting directives. -/
theorem single_arg_not_interpreted (lvl : Level) (label file : String)
    (line : Nat) (s : String)
    (hclean : cleanFmt (logFmt file line label ("")).data = true) :
    renderOut (log lvl label file line [s]) =
      some (logFmt file line label ("") ++ s) := by
  show some (render (logFmt file line label ("\x7b\x7d")) [s]) = _
  rw [logFmt_split file line label ("\x7b\x7d"),
    render_split _ _ _ hclean, render_hole]

/-- Witness for C9: an argument containing a literal placeholder survives
rendering untouched. -/
theorem single_arg_not_interpreted_witness :
    renderOut (log Level.Warn ("WARN") ("src/lib.rs") 7 (["a\x7b\x7db"])) =
      some ("[src/lib.rs:7 WARN] a\x7b\x7db") :=
  (single_arg_not_interpreted Level.Warn ("WARN") ("src/lib.rs") 7
    ("a\x7b\x7db") (by decide)).trans (by decide)

/-- Witness for C6: a debug call under a Warn threshold emits nothing. -/
theorem suppressed_call_no_effect_witness :
    debug ⟨false, false, true, false⟩ ("f.rs") 1 (["x"]) = none :=
  (suppressed_call_no_effect ⟨false, false, true, false⟩ ("f.rs") 1
    (["x"])).1 (by decide)

end SolanaLogger
